import Mathlib

/-!
Verification of the resume extraction-and-scoring pipeline
(`Backend/gemini_processor.py`).

The Python code is shallowly embedded:

* JSON values (the result of `json.loads`) become the inductive `Json`.
* Python truthiness, `dict.get`, `str.strip` become `Json.truthy`,
  `Json.pyGet`, `pyStrip`.
* `_calculate_resume_completeness` becomes `calculateResumeCompleteness`.
  Python attribute errors (calling `.get` on a non-dict) are modelled with
  `Except String`: `.error "AttributeError"` marks the raised exception.
* The response handling of `extract_info_with_gemini` after the model call
  becomes `processGeneratedText` / `extractPipeline`, parameterised by the
  external `json.loads` decoder.
-/

/-- A parsed JSON value, the possible results of Python's `json.loads`. -/
inductive Json where
  | null : Json
  | bool : Bool → Json
  | num : Int → Json
  | str : String → Json
  | arr : List Json → Json
  | obj : List (String × Json) → Json

/-- Python truthiness (`bool(x)`) of a decoded JSON value: `None`, `False`,
`0`, `""`, `[]`, `{}` are falsy, everything else truthy. -/
def Json.truthy : Json → Bool
  | .null => false
  | .bool b => b
  | .num n => n != 0
  | .str s => !s.isEmpty
  | .arr xs => !xs.isEmpty
  | .obj kvs => !kvs.isEmpty

/-- Whether a JSON value is a Python `dict`. -/
def Json.isObj : Json → Bool
  | .obj _ => true
  | _ => false

/-- Whether a JSON value is Python's `None`. -/
def Json.isNull : Json → Bool
  | .null => true
  | _ => false

/-- Pure lookup of a key in a JSON value: for a `dict`, `d.get(k)` with the
default `None` for an absent key; `.null` on every non-dict (only used where
the value is known to be a dict). -/
def Json.objGet (j : Json) (k : String) : Json :=
  match j with
  | .obj kvs => (kvs.lookup k).getD Json.null
  | _ => Json.null

/-- Python's `value.get(k)`: succeeds on a dict (returning `None`, i.e.
`.null`, for an absent key) and raises `AttributeError` on every other
decoded JSON value — none of `None`, `bool`, numbers, `str`, `list` has a
`get` method. -/
def Json.pyGet (j : Json) (k : String) : Except String Json :=
  match j with
  | .obj kvs => .ok ((kvs.lookup k).getD Json.null)
  | _ => .error "AttributeError"

/-- The whitespace characters removed by Python's `str.strip()`. -/
def pyIsSpace (c : Char) : Bool :=
  c = ' ' || c = '\t' || c = '\n' || c = '\r' || c = '\x0b' || c = '\x0c'

/-- Python's `str.strip()`: remove leading and trailing whitespace. -/
def pyStrip (s : String) : String :=
  String.mk (((s.toList.dropWhile pyIsSpace).reverse.dropWhile pyIsSpace).reverse)

/-- The presence criterion of the nine scalar string fields:
`isinstance(x, str) and bool(x.strip())`. -/
def scalarCheck : Json → Bool
  | .str s => !(pyStrip s).isEmpty
  | _ => false

/-- A scalar criterion never raises. -/
def scalarCriterion : Json → Except String Bool :=
  fun x => .ok (scalarCheck x)

/-- Python's `all(...)` over a generator: evaluates the body of each element
in order, short-circuiting at the first falsy result; an exception raised by
the body propagates. -/
def pyAll (p : Json → Except String Bool) : List Json → Except String Bool
  | [] => .ok true
  | x :: xs => do
    let b ← p x
    if b then pyAll p xs else pure false

/-- Per-entry check `item.get(k1) and item.get(k2)` (truthiness of the
`and`-chain, left to right, short-circuiting). -/
def entryCheck2 (k1 k2 : String) (item : Json) : Except String Bool := do
  let v1 ← item.pyGet k1
  if v1.truthy then do
    let v2 ← item.pyGet k2
    pure v2.truthy
  else pure false

/-- Per-entry check `item.get(k)` (truthiness). -/
def entryCheck1 (k : String) (item : Json) : Except String Bool := do
  let v ← item.pyGet k
  pure v.truthy

/-- Criterion of `workExperience` and `education`:
`isinstance(arr, list) and len(arr) > 0 and all(item.get(k1) and item.get(k2) for item in arr)`. -/
def listCriterion2 (k1 k2 : String) : Json → Except String Bool := fun v =>
  match v with
  | .arr xs => if xs.isEmpty then pure false else pyAll (entryCheck2 k1 k2) xs
  | _ => pure false

/-- Criterion of `skills` and `languages`:
`isinstance(arr, list) and len(arr) > 0 and all(item.get(k) for item in arr)`. -/
def listCriterion1 (k : String) : Json → Except String Bool := fun v =>
  match v with
  | .arr xs => if xs.isEmpty then pure false else pyAll (entryCheck1 k) xs
  | _ => pure false

/-- Criterion of `certifications`: `isinstance(arr, list) and len(arr) > 0`,
with no per-entry check. -/
def certCriterion : Json → Except String Bool := fun v =>
  match v with
  | .arr xs => pure (!xs.isEmpty)
  | _ => pure false

/-- The `completeness_criteria` dict of `_calculate_resume_completeness`, in
its insertion (= iteration) order. -/
def completenessCriteria : List (String × (Json → Except String Bool)) :=
  [ ("firstName", scalarCriterion),
    ("lastName", scalarCriterion),
    ("professionalTitle", scalarCriterion),
    ("email", scalarCriterion),
    ("phone", scalarCriterion),
    ("location", scalarCriterion),
    ("linkedinURL", scalarCriterion),
    ("website", scalarCriterion),
    ("professionalSummary", scalarCriterion),
    ("workExperience", listCriterion2 "jobTitle" "company"),
    ("education", listCriterion2 "degreeCertification" "institutionName"),
    ("skills", listCriterion1 "name"),
    ("languages", listCriterion1 "name"),
    ("certifications", certCriterion) ]

/-- The schema field names, in declaration order. -/
def schemaFields : List String :=
  [ "firstName", "lastName", "professionalTitle", "email", "phone",
    "location", "linkedinURL", "website", "professionalSummary",
    "workExperience", "education", "skills", "languages", "certifications" ]

/-- The nine scalar field names. -/
def scalarFields : List String :=
  [ "firstName", "lastName", "professionalTitle", "email", "phone",
    "location", "linkedinURL", "website", "professionalSummary" ]

/-- The four structured-collection field names. -/
def collectionFields : List String :=
  [ "workExperience", "education", "skills", "languages" ]

/-- One iteration of the scoring loop:
`value = extracted_data.get(field)` followed by
`value is not None and check_func(value)`. -/
def scoreField (r : Json) (fc : String × (Json → Except String Bool)) :
    Except String Bool := do
  let value ← r.pyGet fc.1
  if value.isNull then pure false else fc.2 value

/-- The scoring loop: the populated count and the missing-field list, in
iteration order, with the first raised exception propagated. -/
def scoreFields (r : Json) :
    List (String × (Json → Except String Bool)) → Except String (Nat × List String)
  | [] => .ok (0, [])
  | fc :: rest => do
    let ok ← scoreField r fc
    let pm ← scoreFields r rest
    if ok then pure (pm.1 + 1, pm.2) else pure (pm.1, fc.1 :: pm.2)

/-- `_calculate_resume_completeness`.  The Python percentage is
`int((populated / total) * 100)` in float arithmetic followed by
`min(·, 100)`; for `total = 14` and `populated ∈ 0..14` the float truncation
agrees with exact `populated * 100 / 14` truncating division, which is what
is used here. -/
def calculateResumeCompleteness (extractedData : Json) :
    Except String (Nat × List String) := do
  let pm ← scoreFields extractedData completenessCriteria
  let totalFields := completenessCriteria.length
  if totalFields = 0 then pure (0, pm.2)
  else pure (min (pm.1 * 100 / totalFields) 100, pm.2)

/-!
The prompt of `extract_info_with_gemini`, reproduced verbatim from the
f-string (with `\x7b`/`\x7d` the literal braces and `\x27` the literal
apostrophes).  The phrases that the specification singles out are kept as
named segments.
-/

def promptSeg1 : String :=
  "\n" ++
  "    Analyze the following resume text and extract the specified information.\n"

def promptJsonOnlyLine : String :=
  "    Return the information as a single, valid JSON object. Do NOT use markdown like ```json ... ```.\n"

def promptSeg2 : String :=
  "    The JSON object must strictly adhere to the following keys and structures.\n"

def promptNullPolicyLine : String :=
  "    If a key\x27s information is not found, use `null` for string fields or an empty array `[]` for array fields.\n"

def promptSeg3 : String :=
  "    For arrays of objects, if no suitable entry is found, the array should be empty `[]`.\n" ++
  "\n" ++
  "    Expected JSON Structure:\n" ++
  "    \x7b\n"

def promptFirstNameLine : String :=
  "      \"firstName\": \"string (e.g., \x27John\x27)\",\n"

def promptSeg4 : String :=
  "      \"lastName\": \"string (e.g., \x27Doe\x27)\",\n" ++
  "      \"professionalTitle\": \"string (e.g., \x27Software Engineer\x27, \x27Project Manager\x27)\",\n" ++
  "      \"email\": \"string (e.g., \x27john.doe@example.com\x27)\",\n" ++
  "      \"phone\": \"string (e.g., \x27+1-123-456-7890\x27 or \x27123.456.7890\x27)\",\n" ++
  "      \"location\": \"string (e.g., \x27Bengaluru, India\x27 or \x27San Francisco, CA\x27)\",\n" ++
  "      \"linkedinURL\": \"string (full URL, e.g., \x27https://www.linkedin.com/in/johndoe\x27)\",\n" ++
  "      \"website\": \"string (full URL, e.g., \x27https://johndoeportfolio.com\x27)\",\n" ++
  "      \"professionalSummary\": \"string (concise summary of professional experience and goals)\",\n" ++
  "      \"workExperience\": [\n" ++
  "        \x7b\n" ++
  "          \"jobTitle\": \"string (e.g., \x27Senior Software Engineer\x27)\",\n" ++
  "          \"company\": \"string (e.g., \x27Google\x27)\",\n" ++
  "          \"location\": \"string (e.g., \x27Mountain View, CA\x27)\",\n" ++
  "          \"startDate\": \"string (e.g., \x27Jan 2020\x27 or \x272020\x27)\",\n" ++
  "          \"endDate\": \"string (e.g., \x27Dec 2022\x27 or \x27Present\x27 or \x272022\x27)\",\n" ++
  "          \"description\": \"string (key responsibilities and achievements, ideally bullet points merged into a string)\"\n" ++
  "        \x7d\n" ++
  "      ],\n" ++
  "      \"education\": [\n" ++
  "        \x7b\n" ++
  "          \"degreeCertification\": \"string (e.g., \x27Master of Science in CS\x27, \x27AWS Certified Developer Associate\x27)\",\n" ++
  "          \"institutionName\": \"string (e.g., \x27Stanford University\x27)\",\n" ++
  "          \"location\": \"string (e.g., \x27Stanford, CA\x27)\",\n" ++
  "          \"startYear\": \"string (e.g., \x272016\x27)\",\n" ++
  "          \"endYear\": \"string (e.g., \x272018\x27 or \x27Present\x27)\",\n" ++
  "          \"description\": \"string (relevant coursework, GPA, honors, thesis title, etc.)\"\n" ++
  "        \x7d\n" ++
  "      ],\n" ++
  "      \"skills\": [\n" ++
  "        \x7b\n" ++
  "          \"name\": \"string (e.g., \x27Python\x27, \x27Data Analysis\x27)\",\n"

def promptSkillsLevelLine : String :=
  "          \"level\": \"string (e.g., \x27Expert\x27, \x27Advanced\x27, \x27Intermediate\x27, \x27Beginner\x27). If no level is specified in the resume, default to \x27Beginner\x27.\"\n"

def promptSeg5 : String :=
  "        \x7d\n" ++
  "      ],\n" ++
  "      \"languages\": [\n" ++
  "        \x7b\n" ++
  "          \"name\": \"string (e.g., \x27English\x27)\",\n" ++
  "          \"level\": \"string (e.g., \x27Native\x27, \x27Fluent\x27, \x27Conversational\x27, \x27Beginner\x27). If no level is specified, default to \x27Beginner\x27.\"\n" ++
  "        \x7d\n" ++
  "      ],\n" ++
  "      \"certifications\": [\n" ++
  "        \"string (for standalone certifications not tied to an educational degree, e.g., \x27PMP\x27, \x27CSM\x27)\"\n" ++
  "      ]\n" ++
  "    \x7d\n" ++
  "\n" ++
  "    Ensure the entire output is ONLY the JSON object, with no surrounding text, explanations, or markdown.\n" ++
  "    Pay close attention to extracting all details for work experience and education, including dates and locations.\n" ++
  "    For skills and languages, always include a \x27level\x27 field, defaulting to \x27Beginner\x27 if no explicit level is found.\n" ++
  "\n"

def promptDelimLine : String :=
  "    Resume Text to Analyze:\n" ++
  "    ---\n" ++
  "    "

def promptTail : String :=
  "\n    ---\n    "

/-- Everything of the prompt before the interpolated `text_content`. -/
def promptHead : String :=
  promptSeg1 ++ promptJsonOnlyLine ++ promptSeg2 ++ promptNullPolicyLine ++
  promptSeg3 ++ promptFirstNameLine ++ promptSeg4 ++ promptSkillsLevelLine ++
  promptSeg5 ++ promptDelimLine

/-- The prompt construction of `extract_info_with_gemini`: the f-string with
`text_content` interpolated verbatim, with no validation or truncation. -/
def buildPrompt (textContent : String) : String :=
  promptHead ++ textContent ++ promptTail

/-!
The response-handling part of `extract_info_with_gemini`, after the model
call returned.  `json.loads` is an external library function and is passed
in as a parameter `jsonLoads : String → Option Json` (`none` = it raised
`json.JSONDecodeError`).
-/

/-- The error taxonomy surfaced by `extract_info_with_gemini` as
`HTTPException`s:

* `modelResponseMalformed` — HTTP 500, "Gemini API response did not contain
  expected content structure."
* `aiResponseNotJSON` — HTTP 422, carrying `generated_text.strip()` in the
  `X-Raw-AI-Response` header as diagnostic payload.
* `modelCallFailed` — HTTP 500, "Failed to communicate with AI model: {e}",
  raised by the outer generic handler for any other exception. -/
inductive PipelineError where
  | modelResponseMalformed : PipelineError
  | aiResponseNotJSON : String → PipelineError
  | modelCallFailed : String → PipelineError
deriving DecidableEq

/-- The dict returned by `extract_info_with_gemini` on success. -/
structure UploadResult where
  extractedData : Json
  completenessPercentage : Nat
  remainingFields : List String

/-- One `part` of a Gemini candidate's content. -/
structure ContentPart where
  text : String

/-- The `content` of a Gemini candidate. -/
structure GContent where
  parts : List ContentPart

/-- One Gemini response candidate; `content` may be absent/`None` (falsy). -/
structure Candidate where
  content : Option GContent

/-- The shape of a Gemini response as accessed by the code: the candidate
list, and the optional flat `.text` attribute (`none` = `hasattr` is
false). -/
structure ModelResponse where
  candidates : List Candidate
  textAttr : Option String

/-- The `elif hasattr(response, 'text') and response.text` fallback: yields
the flat text attribute only when present and truthy (non-empty). -/
def ModelResponse.flatFallback (r : ModelResponse) : Option String :=
  match r.textAttr with
  | some t => if t.isEmpty then none else some t
  | none => none

/-- Whether the structured access path is available:
`response.candidates and response.candidates[0].content and
response.candidates[0].content.parts` is truthy. -/
def ModelResponse.structuredAvailable (r : ModelResponse) : Bool :=
  match r.candidates with
  | c :: _ =>
    match c.content with
    | some content => !content.parts.isEmpty
    | none => false
  | [] => false

/-- What the structured access path yields when available:
`response.candidates[0].content.parts[0].text`. -/
def ModelResponse.structuredText (r : ModelResponse) : Option String :=
  match r.candidates with
  | c :: _ =>
    match c.content with
    | some content =>
      match content.parts with
      | p :: _ => some p.text
      | [] => none
    | none => none
  | [] => none

/-- The `generated_text` location logic: the structured path if its
truthiness condition holds, else the flat `.text` fallback, else `none`
(which the code turns into the malformed-response failure). -/
def locateGeneratedText (r : ModelResponse) : Option String :=
  match r.candidates with
  | c :: _ =>
    match c.content with
    | some content =>
      match content.parts with
      | p :: _ => some p.text
      | [] => r.flatFallback
    | none => r.flatFallback
  | [] => r.flatFallback

/-- The inner `try` block: `json.loads(generated_text.strip())`, then
scoring, then assembly of the result dict.  A `JSONDecodeError` becomes the
422 failure carrying the stripped text; an exception raised by the scorer
(it is not a `JSONDecodeError` and not an `HTTPException`) escapes to the
outer generic handler and becomes the 500 `modelCallFailed` failure. -/
def processGeneratedText (jsonLoads : String → Option Json)
    (generatedText : String) : Except PipelineError UploadResult :=
  match jsonLoads (pyStrip generatedText) with
  | none => .error (.aiResponseNotJSON (pyStrip generatedText))
  | some parsed =>
    match calculateResumeCompleteness parsed with
    | .ok pm => .ok ⟨parsed, pm.1, pm.2⟩
    | .error e => .error (.modelCallFailed e)

/-- `extract_info_with_gemini` from the point where the model response is in
hand: locate the generated text (raising the malformed-response failure when
neither access path applies), then parse, score and assemble. -/
def extractPipeline (jsonLoads : String → Option Json)
    (r : ModelResponse) : Except PipelineError UploadResult :=
  match locateGeneratedText r with
  | none => .error .modelResponseMalformed
  | some t => processGeneratedText jsonLoads t

/-- Updating one key of a record in place (Python's `d[f] = v`): replace the
first binding of `f`, keeping its position, or append a new binding. -/
def setKey : List (String × Json) → String → Json → List (String × Json)
  | [], f, v => [(f, v)]
  | (g, w) :: rest, f, v =>
    if g = f then (f, v) :: rest else (g, w) :: setKey rest f v

/-- The condition under which a collection value cannot make the per-entry
checks raise: if it is a list, all its entries are dicts. -/
def entriesObjs : Json → Bool
  | .arr xs => xs.all Json.isObj
  | _ => true

/-- The Scenario A record: only `firstName` and `lastName` populated. -/
def scenarioARecord : Json :=
  .obj [("firstName", .str "Jane"), ("lastName", .str "Doe")]

/-- The twelve schema fields missing from the Scenario A record, in schema
order. -/
def scenarioAMissing : List String :=
  [ "professionalTitle", "email", "phone", "location", "linkedinURL", "website",
    "professionalSummary", "workExperience", "education", "skills", "languages",
    "certifications" ]

/-- A record populating every schema field. -/
def fullRecord : Json :=
  .obj [ ("firstName", .str "Jane"), ("lastName", .str "Doe"),
         ("professionalTitle", .str "Engineer"), ("email", .str "jane@example.com"),
         ("phone", .str "123"), ("location", .str "Berlin"),
         ("linkedinURL", .str "https://linkedin.com/in/jane"),
         ("website", .str "https://jane.dev"),
         ("professionalSummary", .str "Ten years of backend work"),
         ("workExperience",
           .arr [.obj [("jobTitle", .str "Dev"), ("company", .str "ACME")]]),
         ("education",
           .arr [.obj [("degreeCertification", .str "BSc"), ("institutionName", .str "X")]]),
         ("skills", .arr [.obj [("name", .str "Python")]]),
         ("languages", .arr [.obj [("name", .str "English")]]),
         ("certifications", .arr [.str "PMP"]) ]

/-- A Gemini response whose structured path is present but holds an empty
first part, with no flat `.text` attribute. -/
def emptyTextResponse : ModelResponse :=
  ⟨[⟨some ⟨[⟨""⟩]⟩⟩], none⟩

/-!
### Helper lemmas about the scoring loop
-/

lemma except_bind_ok {α β : Type} {x : Except String α} {f : α → Except String β} {b : β} :
    (x >>= f) = .ok b ↔ ∃ a, x = .ok a ∧ f a = .ok b := by
  cases x <;> simp [Bind.bind, Except.bind]

lemma scoreFields_nil (r : Json) : scoreFields r [] = .ok (0, []) := rfl

lemma scoreFields_cons_ok {r : Json} {fc : String × (Json → Except String Bool)}
    {rest : List (String × (Json → Except String Bool))} {p : Nat} {m : List String} :
    scoreFields r (fc :: rest) = .ok (p, m) ↔
      ∃ b pm, scoreField r fc = .ok b ∧ scoreFields r rest = .ok pm ∧
        ((b = true ∧ p = pm.1 + 1 ∧ m = pm.2) ∨
         (b = false ∧ p = pm.1 ∧ m = fc.1 :: pm.2)) := by
  constructor
  · intro h
    simp only [scoreFields] at h
    rw [except_bind_ok] at h
    obtain ⟨b, hb, h⟩ := h
    rw [except_bind_ok] at h
    obtain ⟨pm, hpm, h⟩ := h
    refine ⟨b, pm, hb, hpm, ?_⟩
    cases b <;> simp only [Bool.false_eq_true, if_false, if_true, pure, Except.pure,
      Except.ok.injEq, Prod.mk.injEq] at h
    · exact Or.inr ⟨rfl, h.1.symm, h.2.symm⟩
    · exact Or.inl ⟨rfl, h.1.symm, h.2.symm⟩
  · rintro ⟨b, pm, hb, hpm, h⟩
    simp only [scoreFields]
    rw [except_bind_ok]
    refine ⟨b, hb, ?_⟩
    rw [except_bind_ok]
    refine ⟨pm, hpm, ?_⟩
    rcases h with ⟨rfl, rfl, rfl⟩ | ⟨rfl, rfl, rfl⟩ <;>
      simp [pure, Except.pure]

lemma scoreFields_count {r : Json} :
    ∀ {cs : List (String × (Json → Except String Bool))} {p : Nat} {m : List String},
      scoreFields r cs = .ok (p, m) → p + m.length = cs.length := by
  intro cs
  induction cs with
  | nil =>
    intro p m h
    simp only [scoreFields_nil, Except.ok.injEq, Prod.mk.injEq] at h
    obtain ⟨rfl, rfl⟩ := h
    simp
  | cons fc rest ih =>
    intro p m h
    rcases scoreFields_cons_ok.mp h with ⟨b, pm, _, hr, hcase⟩
    obtain ⟨p0, m0⟩ := pm
    have hlen := ih hr
    rcases hcase with ⟨rfl, rfl, rfl⟩ | ⟨rfl, rfl, rfl⟩ <;> simp only [List.length_cons] <;>
      omega

lemma scoreFields_missing_sublist {r : Json} :
    ∀ {cs : List (String × (Json → Except String Bool))} {p : Nat} {m : List String},
      scoreFields r cs = .ok (p, m) → m.Sublist (cs.map Prod.fst) := by
  intro cs
  induction cs with
  | nil =>
    intro p m h
    simp only [scoreFields_nil, Except.ok.injEq, Prod.mk.injEq] at h
    obtain ⟨-, rfl⟩ := h
    simp
  | cons fc rest ih =>
    intro p m h
    rcases scoreFields_cons_ok.mp h with ⟨b, pm, _, hr, hcase⟩
    obtain ⟨p0, m0⟩ := pm
    rcases hcase with ⟨rfl, rfl, rfl⟩ | ⟨rfl, rfl, rfl⟩
    · exact (ih hr).cons fc.1
    · exact (ih hr).cons₂ fc.1

lemma scoreField_congr {r r' : Json} {fc : String × (Json → Except String Bool)}
    (h : r.pyGet fc.1 = r'.pyGet fc.1) :
    scoreField r fc = scoreField r' fc := by
  simp only [scoreField, h]

lemma scoreFields_congr {r r' : Json} :
    ∀ {cs : List (String × (Json → Except String Bool))},
      (∀ fc ∈ cs, r.pyGet fc.1 = r'.pyGet fc.1) → scoreFields r cs = scoreFields r' cs := by
  intro cs
  induction cs with
  | nil => intro _; rfl
  | cons fc rest ih =>
    intro h
    have h1 : scoreField r fc = scoreField r' fc := scoreField_congr (h fc (by simp))
    have h2 := ih (fun fc2 hm => h fc2 (by simp [hm]))
    simp only [scoreFields, h1, h2]

lemma scoreField_false_of_mem_missing {r : Json} :
    ∀ {cs : List (String × (Json → Except String Bool))} {p : Nat} {m : List String}
      {f : String} {c : Json → Except String Bool},
      scoreFields r cs = .ok (p, m) → (cs.map Prod.fst).Nodup →
      (f, c) ∈ cs → f ∈ m → scoreField r (f, c) = .ok false := by
  intro cs
  induction cs with
  | nil => intro p m f c _ _ hmem _; cases hmem
  | cons fc rest ih =>
    intro p m f c h hnd hmem hfm
    obtain ⟨g, c0⟩ := fc
    rcases scoreFields_cons_ok.mp h with ⟨b, pm, hf, hr, hcase⟩
    obtain ⟨p0, m0⟩ := pm
    simp only [List.map_cons, List.nodup_cons] at hnd
    rcases List.mem_cons.mp hmem with he | hmem2
    · obtain ⟨rfl, rfl⟩ := Prod.mk.injEq _ _ _ _ |>.mp he
      rcases hcase with ⟨rfl, rfl, rfl⟩ | ⟨rfl, rfl, rfl⟩
      · exact absurd ((scoreFields_missing_sublist hr).subset hfm) hnd.1
      · exact hf
    · rcases hcase with ⟨rfl, rfl, rfl⟩ | ⟨rfl, rfl, rfl⟩
      · exact ih hr hnd.2 hmem2 hfm
      · rcases List.mem_cons.mp hfm with rfl | hfm2
        · exact absurd (List.mem_map_of_mem Prod.fst hmem2) hnd.1
        · exact ih hr hnd.2 hmem2 hfm2

lemma scoreFields_update {r r' : Json} {f : String} :
    ∀ {cs : List (String × (Json → Except String Bool))} {p : Nat} {m : List String},
      scoreFields r cs = .ok (p, m) →
      (∀ fc ∈ cs, fc.1 ≠ f → scoreField r' fc = scoreField r fc) →
      (∀ c, (f, c) ∈ cs → scoreField r (f, c) = .ok false ∧ scoreField r' (f, c) = .ok true) →
      scoreFields r' cs = .ok (p + m.count f, m.filter (fun g => g != f)) := by
  intro cs
  induction cs with
  | nil =>
    intro p m h _ _
    simp only [scoreFields_nil, Except.ok.injEq, Prod.mk.injEq] at h
    obtain ⟨rfl, rfl⟩ := h
    simp [scoreFields_nil]
  | cons fc rest ih =>
    intro p m h hne hf
    obtain ⟨g, c0⟩ := fc
    rcases scoreFields_cons_ok.mp h with ⟨b, pm, hb, hr, hcase⟩
    obtain ⟨p0, m0⟩ := pm
    have ihr := ih hr (fun fc2 hm hne2 => hne fc2 (List.mem_cons_of_mem _ hm) hne2)
      (fun c hm => hf c (List.mem_cons_of_mem _ hm))
    by_cases hg : g = f
    · subst hg
      have hgc := hf c0 (List.mem_cons_self _ _)
      have hb0 : b = false := by
        rw [hgc.1] at hb
        exact (Except.ok.inj hb).symm
      subst hb0
      rcases hcase with ⟨hcontra, -, -⟩ | ⟨-, hp, hm⟩
      · exact absurd hcontra (by simp)
      · subst hp; subst hm
        refine scoreFields_cons_ok.mpr ⟨true, _, hgc.2, ihr, Or.inl ⟨rfl, ?_, ?_⟩⟩
        · simp only [List.count_cons_self]
          omega
        · simp [List.filter_cons]
    · have hb' : scoreField r' (g, c0) = .ok b := by
        rw [hne (g, c0) (List.mem_cons_self _ _) hg]; exact hb
      rcases hcase with ⟨hb1, hp, hm⟩ | ⟨hb1, hp, hm⟩
      · subst hb1; subst hp; subst hm
        exact scoreFields_cons_ok.mpr ⟨true, _, hb', ihr, Or.inl ⟨rfl, by omega, rfl⟩⟩
      · subst hb1; subst hp; subst hm
        refine scoreFields_cons_ok.mpr ⟨false, _, hb', ihr, Or.inr ⟨rfl, ?_, ?_⟩⟩
        · simp [List.count_cons_of_ne (show f ≠ g from fun hc => hg hc.symm)]
        · simp [List.filter_cons, hg]

lemma calculate_of_scoreFields {r : Json} {p : Nat} {m : List String}
    (h : scoreFields r completenessCriteria = .ok (p, m)) :
    calculateResumeCompleteness r = .ok (min (p * 100 / 14) 100, m) := by
  have hlen : completenessCriteria.length = 14 := rfl
  simp only [calculateResumeCompleteness, h, hlen, Bind.bind, Except.bind]
  norm_num [pure, Except.pure]

lemma calculate_ok_inv {r : Json} {pct : Nat} {m : List String}
    (h : calculateResumeCompleteness r = .ok (pct, m)) :
    ∃ p, scoreFields r completenessCriteria = .ok (p, m) ∧ pct = min (p * 100 / 14) 100 := by
  cases hs : scoreFields r completenessCriteria with
  | error e =>
    simp only [calculateResumeCompleteness, hs, Bind.bind, Except.bind] at h
    exact Except.noConfusion h
  | ok pm =>
    obtain ⟨p0, m0⟩ := pm
    have hc := calculate_of_scoreFields hs
    rw [hc] at h
    simp only [Except.ok.injEq, Prod.mk.injEq] at h
    refine ⟨p0, ?_, h.1.symm⟩
    rw [← h.2]

/-!
### Lemmas about dict lookup, update and the per-entry checks
-/

lemma lookup_eq_none_of_not_mem {l : List (String × Json)} {f : String}
    (h : f ∉ l.map Prod.fst) : l.lookup f = none := by
  induction l with
  | nil => rfl
  | cons kv rest ih =>
    obtain ⟨k, v⟩ := kv
    simp only [List.map_cons, List.mem_cons, not_or] at h
    have hk : (f == k) = false := by simp [h.1]
    simp [List.lookup_cons, hk, ih h.2]

lemma lookup_setKey (kvs : List (String × Json)) (f : String) (v : Json) (g : String) :
    (setKey kvs f v).lookup g = if g = f then some v else kvs.lookup g := by
  induction kvs with
  | nil =>
    by_cases h : g = f
    · simp [setKey, List.lookup_cons, h]
    · have hb : (g == f) = false := beq_eq_false_iff_ne.mpr h
      simp [setKey, List.lookup_cons, hb, h]
  | cons kv rest ih =>
    obtain ⟨k, w⟩ := kv
    by_cases hk : k = f
    · subst hk
      by_cases hg : g = k
      · simp [setKey, List.lookup_cons, hg]
      · have hb : (g == k) = false := beq_eq_false_iff_ne.mpr hg
        simp [setKey, List.lookup_cons, hb, hg]
    · by_cases hg : g = k
      · subst hg
        have hgf : ¬g = f := hk
        simp [setKey, hk, List.lookup_cons, hgf]
      · have hb : (g == k) = false := beq_eq_false_iff_ne.mpr hg
        simp [setKey, hk, List.lookup_cons, hb, hg, ih]

lemma keys_nodup_unique {β : Type} {l : List (String × β)}
    (h : (l.map Prod.fst).Nodup) {f : String} {c1 c2 : β}
    (h1 : (f, c1) ∈ l) (h2 : (f, c2) ∈ l) : c1 = c2 := by
  induction l with
  | nil => cases h1
  | cons kv rest ih =>
    obtain ⟨k, w⟩ := kv
    simp only [List.map_cons, List.nodup_cons] at h
    rcases List.mem_cons.mp h1 with e1 | m1 <;> rcases List.mem_cons.mp h2 with e2 | m2
    · obtain ⟨rfl, rfl⟩ := Prod.mk.injEq _ _ _ _ |>.mp e1
      obtain ⟨-, rfl⟩ := Prod.mk.injEq _ _ _ _ |>.mp e2
      rfl
    · obtain ⟨rfl, rfl⟩ := Prod.mk.injEq _ _ _ _ |>.mp e1
      exact absurd (List.mem_map_of_mem Prod.fst m2) h.1
    · obtain ⟨rfl, rfl⟩ := Prod.mk.injEq _ _ _ _ |>.mp e2
      exact absurd (List.mem_map_of_mem Prod.fst m1) h.1
    · exact ih h.2 m1 m2

lemma pyAll_ok {q : Json → Bool} {p : Json → Except String Bool} :
    ∀ {xs : List Json}, (∀ x ∈ xs, p x = .ok (q x)) → pyAll p xs = .ok (xs.all q) := by
  intro xs
  induction xs with
  | nil => intro _; rfl
  | cons x xs ih =>
    intro h
    have hx := h x (by simp)
    have hrest := ih (fun y hy => h y (by simp [hy]))
    simp only [pyAll, hx, Bind.bind, Except.bind]
    cases hq : q x
    · simp [List.all_cons, hq, pure, Except.pure]
    · simp [List.all_cons, hq, hrest]

lemma entryCheck2_obj {k1 k2 : String} {x : Json} (h : x.isObj = true) :
    entryCheck2 k1 k2 x = .ok ((x.objGet k1).truthy && (x.objGet k2).truthy) := by
  cases x with
  | obj kvs =>
    simp only [entryCheck2, Json.pyGet, Json.objGet, Bind.bind, Except.bind]
    cases ht : ((kvs.lookup k1).getD Json.null).truthy <;> simp [pure, Except.pure, ht]
  | null => exact absurd h (by simp [Json.isObj])
  | bool b => exact absurd h (by simp [Json.isObj])
  | num n => exact absurd h (by simp [Json.isObj])
  | str s => exact absurd h (by simp [Json.isObj])
  | arr xs => exact absurd h (by simp [Json.isObj])

lemma entryCheck1_obj {k : String} {x : Json} (h : x.isObj = true) :
    entryCheck1 k x = .ok (x.objGet k).truthy := by
  cases x with
  | obj kvs =>
    simp [entryCheck1, Json.pyGet, Json.objGet, Bind.bind, Except.bind, pure, Except.pure]
  | null => exact absurd h (by simp [Json.isObj])
  | bool b => exact absurd h (by simp [Json.isObj])
  | num n => exact absurd h (by simp [Json.isObj])
  | str s => exact absurd h (by simp [Json.isObj])
  | arr xs => exact absurd h (by simp [Json.isObj])

lemma criteria_keys : completenessCriteria.map Prod.fst = schemaFields := rfl

lemma schemaFields_nodup : schemaFields.Nodup := by decide

lemma scalar_mem_criteria {f : String} (hf : f ∈ scalarFields) :
    (f, scalarCriterion) ∈ completenessCriteria := by
  simp only [scalarFields, List.mem_cons, List.not_mem_nil, or_false] at hf
  rcases hf with rfl | rfl | rfl | rfl | rfl | rfl | rfl | rfl | rfl <;>
    simp [completenessCriteria]

lemma scoreField_obj {kvs : List (String × Json)} {fc : String × (Json → Except String Bool)} :
    scoreField (Json.obj kvs) fc =
      (if ((kvs.lookup fc.1).getD Json.null).isNull then .ok false
       else fc.2 ((kvs.lookup fc.1).getD Json.null)) := rfl

lemma scoreFields_total {r : Json} :
    ∀ {cs : List (String × (Json → Except String Bool))},
      (∀ fc ∈ cs, ∃ b, scoreField r fc = .ok b) → ∃ pm, scoreFields r cs = .ok pm := by
  intro cs
  induction cs with
  | nil => intro _; exact ⟨(0, []), rfl⟩
  | cons fc rest ih =>
    intro h
    obtain ⟨b, hb⟩ := h fc (by simp)
    obtain ⟨pm, hpm⟩ := ih (fun fc2 hm => h fc2 (by simp [hm]))
    cases b
    · exact ⟨(pm.1, fc.1 :: pm.2),
        scoreFields_cons_ok.mpr ⟨false, pm, hb, hpm, Or.inr ⟨rfl, rfl, rfl⟩⟩⟩
    · exact ⟨(pm.1 + 1, pm.2),
        scoreFields_cons_ok.mpr ⟨true, pm, hb, hpm, Or.inl ⟨rfl, rfl, rfl⟩⟩⟩

lemma listCriterion2_total {k1 k2 : String} {v : Json} (h : entriesObjs v = true) :
    ∃ b, listCriterion2 k1 k2 v = .ok b := by
  cases v with
  | arr xs =>
    simp only [entriesObjs, List.all_eq_true] at h
    by_cases he : xs.isEmpty = true
    · exact ⟨false, by simp [listCriterion2, he, pure, Except.pure]⟩
    · refine ⟨xs.all fun x => (x.objGet k1).truthy && (x.objGet k2).truthy, ?_⟩
      simp only [listCriterion2]
      rw [if_neg he]
      exact pyAll_ok (fun x hx => entryCheck2_obj (h x hx))
  | null => exact ⟨false, rfl⟩
  | bool b => exact ⟨false, rfl⟩
  | num n => exact ⟨false, rfl⟩
  | str s => exact ⟨false, rfl⟩
  | obj kvs => exact ⟨false, rfl⟩

lemma listCriterion1_total {k : String} {v : Json} (h : entriesObjs v = true) :
    ∃ b, listCriterion1 k v = .ok b := by
  cases v with
  | arr xs =>
    simp only [entriesObjs, List.all_eq_true] at h
    by_cases he : xs.isEmpty = true
    · exact ⟨false, by simp [listCriterion1, he, pure, Except.pure]⟩
    · refine ⟨xs.all fun x => (x.objGet k).truthy, ?_⟩
      simp only [listCriterion1]
      rw [if_neg he]
      exact pyAll_ok (fun x hx => entryCheck1_obj (h x hx))
  | null => exact ⟨false, rfl⟩
  | bool b => exact ⟨false, rfl⟩
  | num n => exact ⟨false, rfl⟩
  | str s => exact ⟨false, rfl⟩
  | obj kvs => exact ⟨false, rfl⟩

lemma certCriterion_total (v : Json) : ∃ b, certCriterion v = .ok b := by
  cases v with
  | arr xs => exact ⟨!xs.isEmpty, rfl⟩
  | null => exact ⟨false, rfl⟩
  | bool b => exact ⟨false, rfl⟩
  | num n => exact ⟨false, rfl⟩
  | str s => exact ⟨false, rfl⟩
  | obj kvs => exact ⟨false, rfl⟩

/-!
### Helper lemmas about the response pipeline
-/

lemma processGeneratedText_ne_malformed (jl : String → Option Json) (t : String) :
    processGeneratedText jl t ≠ .error .modelResponseMalformed := by
  cases hj : jl (pyStrip t) with
  | none =>
    simp only [processGeneratedText, hj]
    intro hc
    exact PipelineError.noConfusion (Except.error.inj hc)
  | some parsed =>
    cases hcc : calculateResumeCompleteness parsed with
    | ok pm =>
      simp only [processGeneratedText, hj, hcc]
      intro hc
      exact Except.noConfusion hc
    | error e =>
      simp only [processGeneratedText, hj, hcc]
      intro hc
      exact PipelineError.noConfusion (Except.error.inj hc)

lemma locate_none_iff (r : ModelResponse) :
    locateGeneratedText r = none ↔
      (r.structuredAvailable = false ∧ r.flatFallback = none) := by
  obtain ⟨cands, textAttr⟩ := r
  cases cands with
  | nil => simp [locateGeneratedText, ModelResponse.structuredAvailable]
  | cons c cs =>
    obtain ⟨content⟩ := c
    cases content with
    | none => simp [locateGeneratedText, ModelResponse.structuredAvailable]
    | some con =>
      obtain ⟨parts⟩ := con
      cases parts with
      | nil => simp [locateGeneratedText, ModelResponse.structuredAvailable]
      | cons p ps => simp [locateGeneratedText, ModelResponse.structuredAvailable]

/-!
### The claims
-/

/-- C1: the scorer counts how many of the fixed 14 schema fields (9 scalars,
4 structured collections, 1 flat certifications list) pass their presence
predicate and returns `min (populated * 100 / 14) 100` (floored division)
together with the missing fields; on the Scenario A record (only firstName
and lastName populated) it yields percentage 14 and the other 12 schema
field names in schema-declaration order. -/
theorem C1_fixed_schema_count_and_scenarioA :
    (completenessCriteria.map Prod.fst = schemaFields ∧ schemaFields.length = 14) ∧
    (∀ (r : Json) (p : Nat) (m : List String),
      scoreFields r completenessCriteria = .ok (p, m) →
      p + m.length = 14 ∧
      calculateResumeCompleteness r = .ok (min (p * 100 / 14) 100, m)) ∧
    calculateResumeCompleteness scenarioARecord = .ok (14, scenarioAMissing) := by
  refine ⟨⟨rfl, rfl⟩, ?_, rfl⟩
  intro r p m h
  exact ⟨scoreFields_count h, calculate_of_scoreFields h⟩

/-- Witness for C1: the general formula applied to the Scenario A record. -/
theorem C1_fixed_schema_count_and_scenarioA_witness :
    scoreFields scenarioARecord completenessCriteria = .ok (2, scenarioAMissing) ∧
    (2 + scenarioAMissing.length = 14 ∧
      calculateResumeCompleteness scenarioARecord =
        .ok (min (2 * 100 / 14) 100, scenarioAMissing)) :=
  ⟨rfl, C1_fixed_schema_count_and_scenarioA.2.1 scenarioARecord 2 scenarioAMissing rfl⟩

/-- C2: each collection field is checked by an all-or-nothing per-entry
predicate (workExperience: truthy jobTitle and company; education: truthy
degreeCertification and institutionName; skills/languages: truthy name
only), certifications only by non-emptiness; a skills entry without level is
still populated (Scenario B) and one bad education entry disqualifies the
whole field (Scenario C). -/
theorem C2_collection_predicates :
    (("workExperience", listCriterion2 "jobTitle" "company") ∈ completenessCriteria ∧
     ("education", listCriterion2 "degreeCertification" "institutionName") ∈ completenessCriteria ∧
     ("skills", listCriterion1 "name") ∈ completenessCriteria ∧
     ("languages", listCriterion1 "name") ∈ completenessCriteria ∧
     ("certifications", certCriterion) ∈ completenessCriteria) ∧
    (∀ (k1 k2 : String) (xs : List Json), (∀ x ∈ xs, x.isObj = true) →
      listCriterion2 k1 k2 (.arr xs) =
        .ok (!xs.isEmpty &&
          xs.all fun x => (x.objGet k1).truthy && (x.objGet k2).truthy)) ∧
    (∀ (k : String) (xs : List Json), (∀ x ∈ xs, x.isObj = true) →
      listCriterion1 k (.arr xs) =
        .ok (!xs.isEmpty && xs.all fun x => (x.objGet k).truthy)) ∧
    (∀ xs : List Json, certCriterion (.arr xs) = .ok (!xs.isEmpty)) ∧
    listCriterion1 "name" (.arr [.obj [("name", .str "Python")]]) = .ok true ∧
    listCriterion2 "degreeCertification" "institutionName"
      (.arr [ .obj [("degreeCertification", .str "BSc"), ("institutionName", .str "X")],
              .obj [("degreeCertification", .str ""), ("institutionName", .str "Y")] ]) =
      .ok false := by
  refine ⟨⟨by simp [completenessCriteria], by simp [completenessCriteria],
    by simp [completenessCriteria], by simp [completenessCriteria],
    by simp [completenessCriteria]⟩, ?_, ?_, fun xs => rfl, rfl, rfl⟩
  · intro k1 k2 xs h
    by_cases he : xs.isEmpty = true
    · rw [List.isEmpty_iff.mp he]
      simp [listCriterion2, pure, Except.pure]
    · have h1 := pyAll_ok (p := entryCheck2 k1 k2)
        (q := fun x => (x.objGet k1).truthy && (x.objGet k2).truthy)
        (fun x hx => entryCheck2_obj (h x hx))
      simp only [listCriterion2]
      rw [if_neg he, h1]
      simp only [Bool.not_eq_true] at he
      rw [he]
      simp
  · intro k xs h
    by_cases he : xs.isEmpty = true
    · rw [List.isEmpty_iff.mp he]
      simp [listCriterion1, pure, Except.pure]
    · have h1 := pyAll_ok (p := entryCheck1 k)
        (q := fun x => (x.objGet k).truthy)
        (fun x hx => entryCheck1_obj (h x hx))
      simp only [listCriterion1]
      rw [if_neg he, h1]
      simp only [Bool.not_eq_true] at he
      rw [he]
      simp

/-- Witness for C2: the workExperience predicate evaluated on a one-entry
list whose entry is an (empty) dict. -/
theorem C2_collection_predicates_witness :
    (∀ x ∈ [Json.obj []], x.isObj = true) ∧
    listCriterion2 "jobTitle" "company" (.arr [Json.obj []]) =
      .ok (!([Json.obj []] : List Json).isEmpty &&
        ([Json.obj []] : List Json).all fun x =>
          (x.objGet "jobTitle").truthy && (x.objGet "company").truthy) :=
  ⟨by simp [Json.isObj], C2_collection_predicates.2.1 "jobTitle" "company" [Json.obj []]
    (by simp [Json.isObj])⟩

/-- C3: the percentage is an integer bounded by 100 (it is a `Nat`, hence
also at least 0); the empty record scores 0 with all 14 fields missing, and
a fully populated record scores 100 with no missing fields. -/
theorem C3_bounds_empty_and_full :
    (∀ (r : Json) (p : Nat) (m : List String),
      calculateResumeCompleteness r = .ok (p, m) → p ≤ 100) ∧
    calculateResumeCompleteness (Json.obj []) = .ok (0, schemaFields) ∧
    calculateResumeCompleteness fullRecord = .ok (100, []) := by
  refine ⟨?_, rfl, rfl⟩
  intro r p m h
  obtain ⟨p0, -, rfl⟩ := calculate_ok_inv h
  exact min_le_right _ _

/-- Witness for C3: the bound applied to the empty record. -/
theorem C3_bounds_empty_and_full_witness :
    calculateResumeCompleteness (Json.obj []) = .ok (0, schemaFields) ∧ 0 ≤ 100 :=
  ⟨rfl, C3_bounds_empty_and_full.1 (Json.obj []) 0 schemaFields rfl⟩

/-- C4: populating any single currently-missing scalar field of a record
(others held fixed) with a value passing the scalar predicate never
decreases the percentage and removes exactly that field from missingFields,
leaving the rest unchanged. -/
theorem C4_scalar_monotonicity (kvs : List (String × Json)) (f : String) (v : Json)
    (hf : f ∈ scalarFields) (hv : scalarCheck v = true)
    (p : Nat) (m : List String)
    (h : calculateResumeCompleteness (.obj kvs) = .ok (p, m)) (hm : f ∈ m) :
    ∃ q, calculateResumeCompleteness (.obj (setKey kvs f v)) = .ok (q, m.erase f) ∧
      p ≤ q := by
  obtain ⟨p0, hs, rfl⟩ := calculate_ok_inv h
  have hmem : (f, scalarCriterion) ∈ completenessCriteria := scalar_mem_criteria hf
  have hnd : (completenessCriteria.map Prod.fst).Nodup :=
    criteria_keys ▸ schemaFields_nodup
  have hvnn : v.isNull = false := by
    cases v <;> simp_all [scalarCheck, Json.isNull]
  have hneq : ∀ fc ∈ completenessCriteria, fc.1 ≠ f →
      scoreField (Json.obj (setKey kvs f v)) fc = scoreField (Json.obj kvs) fc := by
    intro fc _ hne
    apply scoreField_congr
    simp [Json.pyGet, lookup_setKey, hne]
  have hfc : ∀ c, (f, c) ∈ completenessCriteria →
      scoreField (Json.obj kvs) (f, c) = .ok false ∧
      scoreField (Json.obj (setKey kvs f v)) (f, c) = .ok true := by
    intro c hc
    have hceq : c = scalarCriterion := keys_nodup_unique hnd hc hmem
    subst hceq
    refine ⟨scoreField_false_of_mem_missing hs hnd hc hm, ?_⟩
    have hl : (setKey kvs f v).lookup f = some v := by
      rw [lookup_setKey]
      simp
    rw [scoreField_obj]
    simp [hl, hvnn, scalarCriterion, hv]
  have hupd := scoreFields_update hs hneq hfc
  have hsub : m.Sublist schemaFields := criteria_keys ▸ scoreFields_missing_sublist hs
  have hnodup : m.Nodup := hsub.nodup schemaFields_nodup
  have hcount : m.count f = 1 := List.count_eq_one_of_mem hnodup hm
  have herase : m.erase f = m.filter (fun x => x != f) := hnodup.erase_eq_filter f
  rw [hcount, ← herase] at hupd
  refine ⟨min ((p0 + 1) * 100 / 14) 100, calculate_of_scoreFields hupd, ?_⟩
  exact min_le_min (Nat.div_le_div_right (by omega)) (le_refl 100)

/-- Witness for C4: populating `email` in the empty record. -/
theorem C4_scalar_monotonicity_witness :
    ("email" ∈ scalarFields ∧ scalarCheck (Json.str "a") = true ∧
      calculateResumeCompleteness (Json.obj []) = .ok (0, schemaFields) ∧
      "email" ∈ schemaFields) ∧
    ∃ q, calculateResumeCompleteness (Json.obj (setKey [] "email" (Json.str "a"))) =
        .ok (q, schemaFields.erase "email") ∧ 0 ≤ q :=
  ⟨⟨by decide, by decide, rfl, by decide⟩,
    C4_scalar_monotonicity [] "email" (Json.str "a") (by decide) (by decide)
      0 schemaFields rfl (by decide)⟩

/-- C5 counterexample: the record `{"skills": [1]}` is a successful JSON
decode of a model payload, yet the scorer raises (`item.get` on the integer
entry is an `AttributeError`), so scoring is not total over parsed model
output. -/
theorem C5_counterexample :
    calculateResumeCompleteness (Json.obj [("skills", Json.arr [Json.num 1])]) =
      .error "AttributeError" := rfl

/-- C5 (amended): the scorer completes without raising on every decoded
record that is a JSON object whose four structured-collection fields, when
lists, contain only objects; and when the scorer does raise, the exception
surfaces through the outer generic handler as the `modelCallFailed` kind, so
no failure kind beyond the three ever reaches the caller. -/
theorem C5_amended_scorer_totality :
    (∀ kvs : List (String × Json),
      (∀ f ∈ collectionFields, entriesObjs ((Json.obj kvs).objGet f) = true) →
      ∃ pm, calculateResumeCompleteness (Json.obj kvs) = .ok pm) ∧
    (∀ (jsonLoads : String → Option Json) (t : String) (parsed : Json) (e : String),
      jsonLoads (pyStrip t) = some parsed →
      calculateResumeCompleteness parsed = .error e →
      processGeneratedText jsonLoads t = .error (.modelCallFailed e)) := by
  constructor
  · intro kvs hwf
    have htot : ∀ fc ∈ completenessCriteria, ∃ b, scoreField (Json.obj kvs) fc = .ok b := by
      intro fc hm
      rw [scoreField_obj]
      by_cases hn : ((kvs.lookup fc.1).getD Json.null).isNull = true
      · rw [if_pos hn]
        exact ⟨false, rfl⟩
      · rw [if_neg hn]
        simp only [completenessCriteria, List.mem_cons, List.not_mem_nil, or_false] at hm
        rcases hm with rfl | rfl | rfl | rfl | rfl | rfl | rfl | rfl | rfl | rfl | rfl | rfl | rfl | rfl
        · exact ⟨_, rfl⟩
        · exact ⟨_, rfl⟩
        · exact ⟨_, rfl⟩
        · exact ⟨_, rfl⟩
        · exact ⟨_, rfl⟩
        · exact ⟨_, rfl⟩
        · exact ⟨_, rfl⟩
        · exact ⟨_, rfl⟩
        · exact ⟨_, rfl⟩
        · exact listCriterion2_total (hwf "workExperience" (by simp [collectionFields]))
        · exact listCriterion2_total (hwf "education" (by simp [collectionFields]))
        · exact listCriterion1_total (hwf "skills" (by simp [collectionFields]))
        · exact listCriterion1_total (hwf "languages" (by simp [collectionFields]))
        · exact certCriterion_total _
    obtain ⟨pm, hpm⟩ := scoreFields_total htot
    obtain ⟨p0, m0⟩ := pm
    exact ⟨_, calculate_of_scoreFields hpm⟩
  · intro jl t parsed e hj hc
    simp only [processGeneratedText, hj, hc]

/-- Witness for C5 (amended): totality on the empty object, and the generic
500 surfacing of the counterexample record's scorer exception. -/
theorem C5_amended_scorer_totality_witness :
    ((∀ f ∈ collectionFields, entriesObjs ((Json.obj []).objGet f) = true) ∧
      ∃ pm, calculateResumeCompleteness (Json.obj []) = .ok pm) ∧
    ((fun _ : String => some (Json.obj [("skills", Json.arr [Json.num 1])]))
        (pyStrip "x") = some (Json.obj [("skills", Json.arr [Json.num 1])]) ∧
      processGeneratedText (fun _ => some (Json.obj [("skills", Json.arr [Json.num 1])])) "x" =
        .error (.modelCallFailed "AttributeError")) :=
  ⟨⟨by decide, C5_amended_scorer_totality.1 [] (by decide)⟩,
   ⟨rfl, C5_amended_scorer_totality.2
      (fun _ => some (Json.obj [("skills", Json.arr [Json.num 1])])) "x"
      (Json.obj [("skills", Json.arr [Json.num 1])]) "AttributeError" rfl rfl⟩⟩

/-- C6: whenever strict JSON decoding of the whitespace-trimmed model text
fails, the pipeline fails with the `aiResponseNotJSON` kind (HTTP 422,
client-visible), its diagnostic payload is exactly the trimmed input, and no
`UploadResult` is returned (the result is an `Except.error`). -/
theorem C6_not_json_failure_fidelity (jsonLoads : String → Option Json) (t : String)
    (h : jsonLoads (pyStrip t) = none) :
    processGeneratedText jsonLoads t = .error (.aiResponseNotJSON (pyStrip t)) := by
  simp only [processGeneratedText, h]

/-- Witness for C6 on the raw text `" not json at all\n"` with a decoder
that rejects everything. -/
theorem C6_not_json_failure_fidelity_witness :
    ((fun _ : String => (none : Option Json)) (pyStrip " not json at all\n") = none) ∧
    processGeneratedText (fun _ => none) " not json at all\n" =
      .error (.aiResponseNotJSON "not json at all") :=
  ⟨rfl, C6_not_json_failure_fidelity (fun _ => none) " not json at all\n" rfl⟩

/-- C7 counterexample: a response whose structured path is present but whose
first part is the empty string (and with no flat `.text` attribute) makes
neither access path yield a non-empty string, yet the pipeline fails with
the not-JSON kind (the empty string is parsed and rejected), not with
`modelResponseMalformed` as the claim requires. -/
theorem C7_counterexample :
    (emptyTextResponse.structuredText = some "" ∧
      emptyTextResponse.flatFallback = none) ∧
    extractPipeline (fun _ => none) emptyTextResponse =
      .error (.aiResponseNotJSON "") ∧
    extractPipeline (fun _ => none) emptyTextResponse ≠
      .error .modelResponseMalformed := by
  refine ⟨⟨rfl, rfl⟩, rfl, ?_⟩
  intro hc
  rw [show extractPipeline (fun _ => none) emptyTextResponse =
      .error (.aiResponseNotJSON "") from rfl] at hc
  exact PipelineError.noConfusion (Except.error.inj hc)

/-- C7 (amended): the pipeline fails with `modelResponseMalformed` exactly
when the structured access path is unavailable (no candidate, falsy content,
or empty parts list) and the flat `.text` fallback is absent or empty; when
the structured path is available but yields an empty string the pipeline
instead proceeds to parsing (failing later as not-JSON).  The kind is a
constructor distinct from the parse-failure kind. -/
theorem C7_amended_malformed_condition (jsonLoads : String → Option Json)
    (r : ModelResponse) :
    extractPipeline jsonLoads r = .error .modelResponseMalformed ↔
      (r.structuredAvailable = false ∧ r.flatFallback = none) := by
  rw [← locate_none_iff]
  constructor
  · intro h
    cases hl : locateGeneratedText r with
    | none => rfl
    | some t =>
      simp only [extractPipeline, hl] at h
      exact absurd h (processGeneratedText_ne_malformed jsonLoads t)
  · intro h
    simp only [extractPipeline, h]

/-- C8: prompt construction is a pure function of the input text: the result
is always head ++ text ++ tail, with the input text embedded verbatim (no
validation or truncation) between the `---` delimiters of the
`Resume Text to Analyze` section; the head contains the only-JSON/no-markdown
instruction, the null/empty-array policy for absent fields, a field schema
line with examples, and the default-to-Beginner rule for unspecified levels. -/
theorem C8_prompt_construction :
    (∀ t : String, buildPrompt t = promptHead ++ t ++ promptTail) ∧
    promptTail = "\n    ---\n    " ∧
    (∃ a, promptHead = a ++ promptDelimLine) ∧
    promptDelimLine = "    Resume Text to Analyze:\n" ++ "    ---\n" ++ "    " ∧
    (∃ a b, promptHead = a ++ promptJsonOnlyLine ++ b) ∧
    promptJsonOnlyLine =
      "    Return the information as a single, valid JSON object. Do NOT use markdown like ```json ... ```.\n" ∧
    (∃ a b, promptHead = a ++ promptNullPolicyLine ++ b) ∧
    promptNullPolicyLine =
      "    If a key\x27s information is not found, use `null` for string fields or an empty array `[]` for array fields.\n" ∧
    (∃ a b, promptHead = a ++ promptFirstNameLine ++ b) ∧
    promptFirstNameLine = "      \"firstName\": \"string (e.g., \x27John\x27)\",\n" ∧
    (∃ a b, promptHead = a ++ promptSkillsLevelLine ++ b) ∧
    promptSkillsLevelLine =
      "          \"level\": \"string (e.g., \x27Expert\x27, \x27Advanced\x27, \x27Intermediate\x27, \x27Beginner\x27). If no level is specified in the resume, default to \x27Beginner\x27.\"\n" := by
  refine ⟨fun t => rfl, rfl, ⟨promptSeg1 ++ promptJsonOnlyLine ++ promptSeg2 ++
      promptNullPolicyLine ++ promptSeg3 ++ promptFirstNameLine ++ promptSeg4 ++
      promptSkillsLevelLine ++ promptSeg5, rfl⟩, rfl,
    ⟨promptSeg1, promptSeg2 ++ promptNullPolicyLine ++ promptSeg3 ++
      promptFirstNameLine ++ promptSeg4 ++ promptSkillsLevelLine ++ promptSeg5 ++
      promptDelimLine, by simp only [promptHead, String.append_assoc]⟩, rfl,
    ⟨promptSeg1 ++ promptJsonOnlyLine ++ promptSeg2,
      promptSeg3 ++ promptFirstNameLine ++ promptSeg4 ++ promptSkillsLevelLine ++
      promptSeg5 ++ promptDelimLine, by simp only [promptHead, String.append_assoc]⟩, rfl,
    ⟨promptSeg1 ++ promptJsonOnlyLine ++ promptSeg2 ++ promptNullPolicyLine ++ promptSeg3,
      promptSeg4 ++ promptSkillsLevelLine ++ promptSeg5 ++ promptDelimLine,
      by simp only [promptHead, String.append_assoc]⟩, rfl,
    ⟨promptSeg1 ++ promptJsonOnlyLine ++ promptSeg2 ++ promptNullPolicyLine ++
      promptSeg3 ++ promptFirstNameLine ++ promptSeg4,
      promptSeg5 ++ promptDelimLine, by simp only [promptHead, String.append_assoc]⟩, rfl⟩

/-- C9: the scorer's outputs satisfy an exact partition invariant: the
populated count is 14 minus the number of missing fields (each schema field
lands in exactly one side), missingFields is duplicate-free and a
subsequence of the schema field-name sequence, and the percentage is fully
determined by the length of missingFields as
`min ((14 - length) * 100 / 14) 100`. -/
theorem C9_partition_invariant :
    (∀ (r : Json) (p : Nat) (m : List String),
      scoreFields r completenessCriteria = .ok (p, m) → p = 14 - m.length) ∧
    (∀ (r : Json) (pct : Nat) (m : List String),
      calculateResumeCompleteness r = .ok (pct, m) →
      m.Sublist schemaFields ∧ m.Nodup ∧
        pct = min ((14 - m.length) * 100 / 14) 100) := by
  constructor
  · intro r p m h
    have hcnt := scoreFields_count h
    have hlen : completenessCriteria.length = 14 := rfl
    omega
  · intro r pct m h
    obtain ⟨p0, hs, rfl⟩ := calculate_ok_inv h
    have hsub : m.Sublist schemaFields := criteria_keys ▸ scoreFields_missing_sublist hs
    have hcnt := scoreFields_count hs
    have hlen : completenessCriteria.length = 14 := rfl
    refine ⟨hsub, hsub.nodup schemaFields_nodup, ?_⟩
    have hp : p0 = 14 - m.length := by omega
    rw [hp]

/-- Witness for C9 at the Scenario A record. -/
theorem C9_partition_invariant_witness :
    (scoreFields scenarioARecord completenessCriteria = .ok (2, scenarioAMissing) ∧
      2 = 14 - scenarioAMissing.length) ∧
    (calculateResumeCompleteness scenarioARecord = .ok (14, scenarioAMissing) ∧
      (scenarioAMissing.Sublist schemaFields ∧ scenarioAMissing.Nodup ∧
        14 = min ((14 - scenarioAMissing.length) * 100 / 14) 100)) :=
  ⟨⟨rfl, C9_partition_invariant.1 scenarioARecord 2 scenarioAMissing rfl⟩,
   ⟨rfl, C9_partition_invariant.2 scenarioARecord 14 scenarioAMissing rfl⟩⟩

/-- C10: scoring reads only the 14 schema keys — two records that share the
same bindings for them but carry arbitrary different extra keys score
identically — and scoring is deterministic (same record, same result). -/
theorem C10_schema_key_dependence (kvs extra1 extra2 : List (String × Json))
    (h1 : ∀ g ∈ extra1.map Prod.fst, g ∉ schemaFields)
    (h2 : ∀ g ∈ extra2.map Prod.fst, g ∉ schemaFields) :
    calculateResumeCompleteness (.obj (kvs ++ extra1)) =
      calculateResumeCompleteness (.obj (kvs ++ extra2)) ∧
    (∀ r : Json, calculateResumeCompleteness r = calculateResumeCompleteness r) := by
  refine ⟨?_, fun r => rfl⟩
  have hcongr : ∀ fc ∈ completenessCriteria,
      (Json.obj (kvs ++ extra1)).pyGet fc.1 = (Json.obj (kvs ++ extra2)).pyGet fc.1 := by
    intro fc hm
    have hfld : fc.1 ∈ schemaFields := criteria_keys ▸ List.mem_map_of_mem Prod.fst hm
    have l1 : extra1.lookup fc.1 = none :=
      lookup_eq_none_of_not_mem (fun hx => h1 fc.1 hx hfld)
    have l2 : extra2.lookup fc.1 = none :=
      lookup_eq_none_of_not_mem (fun hx => h2 fc.1 hx hfld)
    simp [Json.pyGet, List.lookup_append, l1, l2]
  simp only [calculateResumeCompleteness]
  rw [scoreFields_congr hcongr]

/-- Witness for C10: an extra non-schema key does not change the score. -/
theorem C10_schema_key_dependence_witness :
    ((∀ g ∈ ([("extraKey", Json.num 1)] : List (String × Json)).map Prod.fst,
        g ∉ schemaFields) ∧
      (∀ g ∈ ([] : List (String × Json)).map Prod.fst, g ∉ schemaFields)) ∧
    (calculateResumeCompleteness
        (.obj ([("firstName", Json.str "A")] ++ [("extraKey", Json.num 1)])) =
      calculateResumeCompleteness (.obj ([("firstName", Json.str "A")] ++ [])) ∧
      (∀ r : Json, calculateResumeCompleteness r = calculateResumeCompleteness r)) :=
  ⟨⟨by decide, by simp⟩,
    C10_schema_key_dependence [("firstName", Json.str "A")]
      [("extraKey", Json.num 1)] [] (by decide) (by simp)⟩
